import Mathlib

/-!
Verification of the minimize driver (`tooling/minimize/src/main.rs`) and the
boolean-operator test scenarios (`tooling/minitest/src/tests/bool.rs`) of the
minirust repository.

The reference interpreter and the program-construction API are external to the
visible sources; their behaviour is modelled from the specification
(data model §3, operator applicability §4.4, block/terminator semantics §4.5,
outcome taxonomy §7).  The driver logic is embedded directly from `main.rs`,
and the literal test programs directly from `bool.rs`.
-/

namespace Minimize

/-- Modelled from the spec: the integer widths appearing in the covered test
programs (`u8`, `i32`); stands in for the interpreter's bounded-width integer
type descriptors (§3, "Type descriptor"). -/
inductive IntType
| u8
| i32
deriving DecidableEq

/-- Modelled from the spec: the core-IR type vocabulary needed by the covered
programs — boolean, bounded-width integer, and array (§3, "Type descriptor").
The interpreter's full type grammar is external to the visible sources. -/
inductive Ty
| bool
| int (it : IntType)
| array (elem : Ty) (count : Nat)
deriving DecidableEq

/-- Modelled from the spec: runtime values held by constants and locals
(§3, "Operand / Rvalue"). -/
inductive Value
| bool (b : Bool)
| int (n : Int)
| array (elems : List Value)

/-- Modelled from the spec: an Operand of the covered programs is a constant
value carrying its declared type (§3; the tests use only constant operands). -/
inductive Operand
| const (ty : Ty) (val : Value)

/-- The declared type an operand carries. -/
def Operand.ty : Operand → Ty
| .const t _ => t

/-- Modelled from the spec: the rvalue (value-expression) forms exercised by
the covered programs — a plain operand, boolean negation, the boolean-to-
integer cast, and the boolean "and" operator (§3, §4.4). -/
inductive Rvalue
| use (op : Operand)
| not (op : Operand)
| boolToInt (target : IntType) (op : Operand)
| boolAnd (l r : Operand)

/-- Modelled from the spec: statements — assign to a local, mark a local's
storage live or dead (§3, "Statement"; places in the covered programs are
bare locals). -/
inductive Statement
| storageLive (l : Nat)
| storageDead (l : Nat)
| assign (dest : Nat) (src : Rvalue)

/-- Modelled from the spec: terminators — two-way boolean branch, n-way
integer switch with default edge, explicit exit, explicit unreachable
(§3, "Terminator"). -/
inductive Terminator
| ite (cond : Rvalue) (thenBB elseBB : Nat)
| switchInt (scrut : Rvalue) (arms : List (Int × Nat)) (dflt : Nat)
| exit
| unreachable

/-- Modelled from the spec: a basic block is an ordered sequence of statements
followed by exactly one terminator (§3, "BasicBlock"). -/
structure BasicBlock where
  statements : List Statement
  terminator : Terminator

/-- Modelled from the spec: a function is a sequence of typed locals and a
sequence of basic blocks (§3, "Function"; the covered functions return no
value and take no arguments, matching `Ret::No, 0` in the tests). -/
structure Function where
  locals : List Ty
  blocks : List BasicBlock

/-- Modelled from the spec: a program is a list of functions with a designated
start function (§3, "Program"). -/
structure Program where
  functions : List Function
  start : Nat

/-- Modelled from the spec: the closed outcome classification of executing a
program (§3, "TerminationInfo"). -/
inductive TerminationInfo
| machineStop
| illFormed
| ub (msg : String)
| deadlock
| memoryLeak
deriving DecidableEq

/-! ### Construction API (spec §6, mirroring the builder calls in `bool.rs`) -/

/-- Modelled from the spec: builder for a boolean constant operand
(§6, Construction API; `const_bool` in the tests). -/
def const_bool (b : Bool) : Operand := .const .bool (.bool b)

/-- Modelled from the spec: builder for a `u8`-typed integer constant operand
(`const_int::<u8>` in the tests). -/
def const_int_u8 (n : Int) : Operand := .const (.int .u8) (.int n)

/-- Modelled from the spec: builder for an `i32`-typed integer constant
operand (`const_int::<i32>` in the tests). -/
def const_int_i32 (n : Int) : Operand := .const (.int .i32) (.int n)

/-- Modelled from the spec: builder for a constant array operand from element
operands and the element type (`array` in the tests). -/
def array (elems : List Operand) (elemTy : Ty) : Operand :=
  .const (.array elemTy elems.length) (.array (elems.map (fun op => match op with | .const _ v => v)))

/-- Modelled from the spec: the boolean "and" operator (`bool_and`,
`BinOpBool::BitAnd`). -/
def bool_and (l r : Operand) : Rvalue := .boolAnd l r

/-- Modelled from the spec: boolean negation (`not` in the tests). -/
def not (op : Operand) : Rvalue := .not op

/-- Modelled from the spec: the boolean-to-integer cast with target `u8`
(`bool_to_int::<u8>` in the tests). -/
def bool_to_int_u8 (op : Operand) : Rvalue := .boolToInt .u8 op

/-- Modelled from the spec: the storage-live marker statement. -/
def storage_live (l : Nat) : Statement := .storageLive l

/-- Modelled from the spec: the storage-dead marker statement. -/
def storage_dead (l : Nat) : Statement := .storageDead l

/-- Modelled from the spec: assignment to a local place
(`assign(local(i), e)` in the tests). -/
def assign (dest : Nat) (src : Rvalue) : Statement := .assign dest src

/-- Modelled from the spec: the two-way boolean branch terminator
(`if_(cond, then, else)` in the tests). -/
def if_ (cond : Rvalue) (thenBB elseBB : Nat) : Terminator := .ite cond thenBB elseBB

/-- Modelled from the spec: the n-way integer switch terminator with a
default edge (`switch_int` in the tests). -/
def switch_int (scrut : Rvalue) (arms : List (Int × Nat)) (dflt : Nat) : Terminator :=
  .switchInt scrut arms dflt

/-- Modelled from the spec: the explicit program-exit terminator. -/
def exit : Terminator := .exit

/-- Modelled from the spec: the explicit unreachable terminator, whose
execution is undefined behaviour (§3, §4.5). -/
def unreachable : Terminator := .unreachable

/-- Modelled from the spec: basic-block assembler (`block!` in the tests). -/
def block (stmts : List Statement) (t : Terminator) : BasicBlock := ⟨stmts, t⟩

/-- Modelled from the spec: function assembler, for a function with no return
value and no arguments (`function(Ret::No, 0, locals, blocks)`). -/
def function (locals : List Ty) (blocks : List BasicBlock) : Function := ⟨locals, blocks⟩

/-- Modelled from the spec: program assembler; the first function is the
start function (`program(&[...])` in the tests). -/
def program (fns : List Function) : Program := ⟨fns, 0⟩

/-- Modelled from the spec: `small_program(locals, statements)` builds a
single-function program with one block running the statements and then
exiting. -/
def small_program (locals : List Ty) (stmts : List Statement) : Program :=
  program [function locals [block stmts exit]]

/-! ### Well-formedness (spec §4.4 operator applicability, §3 invariants) -/

/-- Modelled from the spec: the result type of an rvalue, `none` when the
operator/operand type combination is invalid — boolean "and" and boolean
negation require boolean-typed operands, and the boolean-to-integer cast
requires a boolean-typed operand (§4.4). -/
def rvalueTy : Rvalue → Option Ty
| .use op => some op.ty
| .not op => if op.ty = .bool then some .bool else none
| .boolToInt it op => if op.ty = .bool then some (.int it) else none
| .boolAnd l r => if l.ty = .bool ∧ r.ty = .bool then some .bool else none

/-- Whether an optional type is present and an integer type. -/
def isIntOptTy : Option Ty → Bool
| some (.int _) => true
| _ => false

/-- Modelled from the spec: structural/typing check of one statement —
storage markers name an in-range local, and an assignment's rvalue must be
well-typed with the destination local's declared type (§3, §4.4). -/
def wfStatement (localTypes : List Ty) : Statement → Bool
| .storageLive l => decide (l < localTypes.length)
| .storageDead l => decide (l < localTypes.length)
| .assign dest src =>
  decide (localTypes.get? dest = rvalueTy src) && (rvalueTy src).isSome

/-- Modelled from the spec: structural/typing check of one terminator — a
two-way branch needs a boolean-typed condition, an integer switch needs an
integer-typed scrutinee, and all block targets must be in range (§3, §4.5). -/
def wfTerminator (nBlocks : Nat) : Terminator → Bool
| .ite cond t e =>
  decide (rvalueTy cond = some .bool) && (decide (t < nBlocks) && decide (e < nBlocks))
| .switchInt scrut arms d =>
  isIntOptTy (rvalueTy scrut) && (arms.all (fun a => decide (a.2 < nBlocks)) && decide (d < nBlocks))
| .exit => true
| .unreachable => true

/-- Modelled from the spec: well-formedness of a basic block. -/
def wfBlock (localTypes : List Ty) (nBlocks : Nat) (bb : BasicBlock) : Bool :=
  bb.statements.all (wfStatement localTypes) && wfTerminator nBlocks bb.terminator

/-- Modelled from the spec: well-formedness of a function — nonempty block
list, every block well-formed. -/
def wfFunction (f : Function) : Bool :=
  decide (0 < f.blocks.length) && f.blocks.all (wfBlock f.locals f.blocks.length)

/-- Modelled from the spec: well-formedness of a program — the start index
resolves and every function is well-formed; checked before execution begins,
any violation is reported as IllFormed (§4.5, §7). -/
def wfProgram (p : Program) : Bool :=
  decide (p.start < p.functions.length) && p.functions.all wfFunction

/-! ### Execution (spec §3, §4.5, §7) -/

/-- Modelled from the spec: the storage state of one local — dead, or live
and possibly holding a value. -/
inductive LocalMem
| dead
| live (v : Option Value)

/-- Whether a local's storage is currently live. -/
def LocalMem.isLive : LocalMem → Bool
| .dead => false
| .live _ => true

/-- Modelled from the spec: the value of a constant operand. -/
def evalOperand : Operand → Value
| .const _ v => v

/-- Modelled from the spec: evaluation of an rvalue over constant operands:
boolean "and" is the standard truth-table conjunction, negation flips the
boolean, and the boolean-to-integer cast sends false to 0 (§8 scenario) and
true to 1; `none` when the operand values do not fit the operator. -/
def evalRvalue : Rvalue → Option Value
| .use op => some (evalOperand op)
| .not op =>
  match evalOperand op with
  | .bool b => some (.bool (!b))
  | _ => none
| .boolToInt _ op =>
  match evalOperand op with
  | .bool b => some (.int (if b then 1 else 0))
  | _ => none
| .boolAnd l r =>
  match evalOperand l, evalOperand r with
  | .bool a, .bool b => some (.bool (a && b))
  | _, _ => none

/-- Modelled from the spec: execution of one statement over the locals'
storage; a local must be live before it is written, and storage markers
toggle liveness (§3, "Statement"; misuse is undefined behaviour, §7). -/
def execStatement (locals : List LocalMem) : Statement → Except String (List LocalMem)
| .storageLive l =>
  if l < locals.length then .ok (locals.set l (.live none)) else .error "local out of range"
| .storageDead l =>
  if l < locals.length then .ok (locals.set l .dead) else .error "local out of range"
| .assign dest src =>
  match locals.get? dest, evalRvalue src with
  | some (.live _), some v => .ok (locals.set dest (.live (some v)))
  | some .dead, _ => .error "write to dead local"
  | _, _ => .error "invalid assignment"

/-- Modelled from the spec: execution of a block's statement list in order. -/
def execStatements : List Statement → List LocalMem → Except String (List LocalMem)
| [], locals => .ok locals
| s :: rest, locals =>
  match execStatement locals s with
  | .ok locals2 => execStatements rest locals2
  | .error m => .error m

/-- Where control goes after a block's terminator: to another block, to a
controlled stop, or to undefined behaviour. -/
inductive BlockOutcome
| goto (b : Nat)
| stop
| ub (msg : String)

/-- First matching switch arm, falling back to the default edge
(first match wins, §4.5). -/
def findArm (n : Int) (dflt : Nat) : List (Int × Nat) → Nat
| [] => dflt
| a :: rest => if a.1 = n then a.2 else findArm n dflt rest

/-- Modelled from the spec: execution of a terminator — a two-way branch on a
boolean condition takes the true-target or false-target, an integer switch
takes the first matching arm or the default, exit stops the machine, and
reaching unreachable is undefined behaviour (§4.5). -/
def execTerminator : Terminator → BlockOutcome
| .ite cond t e =>
  match evalRvalue cond with
  | some (.bool b) => .goto (if b then t else e)
  | _ => .ub "branch on non-boolean"
| .switchInt scrut arms d =>
  match evalRvalue scrut with
  | some (.int n) => .goto (findArm n d arms)
  | _ => .ub "switch on non-integer"
| .exit => .stop
| .unreachable => .ub "reached unreachable"

/-- Modelled from the spec: fuel-bounded execution of a function from a block
index, recording the trace of visited block indices; a stop with live locals
remaining is a memory leak (§3, §7). Returns `none` when the fuel runs out. -/
def runFrom (f : Function) : Nat → Nat → List LocalMem → List Nat → Option (TerminationInfo × List Nat)
| 0, _, _, _ => none
| Nat.succ fuel, bi, locals, trace =>
  match f.blocks.get? bi with
  | none => some (.ub "block index out of range", trace ++ [bi])
  | some bb =>
    match execStatements bb.statements locals with
    | .error m => some (.ub m, trace ++ [bi])
    | .ok locals2 =>
      match execTerminator bb.terminator with
      | .goto b => runFrom f fuel b locals2 (trace ++ [bi])
      | .stop =>
        some ((if locals2.any LocalMem.isLive then .memoryLeak else .machineStop), trace ++ [bi])
      | .ub m => some (.ub m, trace ++ [bi])

/-- Modelled from the spec: running a program — the structural/typing check
runs first and any violation is IllFormed before execution begins (§4.5, §7);
otherwise the start function executes from block 0 with all locals dead.
Also returns the trace of visited block indices. -/
def runProgramTrace (p : Program) (fuel : Nat) : Option (TerminationInfo × List Nat) :=
  if wfProgram p then
    match p.functions.get? p.start with
    | some f => runFrom f fuel 0 (f.locals.map (fun _ => .dead)) []
    | none => some (.illFormed, [])
  else some (.illFormed, [])

/-- Modelled from the spec: the termination classification of a run
(§3, "TerminationInfo"; `run_program` at the driver boundary). -/
def runProgram (p : Program) (fuel : Nat) : Option TerminationInfo :=
  (runProgramTrace p fuel).map Prod.fst

/-! ### Driver (embedded from `tooling/minimize/src/main.rs`) -/

/-- From `main.rs` line 81
(`std::env::args().skip(1).any(|x| x == "--dump")`): the `--dump` flag is
recognised iff some command-line argument after the program name equals
`"--dump"` exactly. `argv` is the full argument list, program name first. -/
def dumpRequested (argv : List String) : Bool :=
  (argv.drop 1).any (fun x => x == "--dump")

/-- The process-level effect of one driver run: the program was printed
without being executed, the run succeeded silently, or a fatal failure with
a message was reported. -/
inductive MainOutcome
| dumped (p : Program)
| silentSuccess
| fatal (msg : String)

/-- From `main.rs` lines 85–92: the match translating the interpreter's
`TerminationInfo` into process-level reporting. `MachineStop` is silent;
every other case is a fatal failure with its own message, and `Ub` carries
the interpreter's diagnostic payload. -/
def report : TerminationInfo → MainOutcome
| .illFormed => .fatal "ERR: program not well-formed (this is a bug in minimize)"
| .machineStop => .silentSuccess
| .ub err => .fatal ("UB: " ++ err)
| .deadlock => .fatal "program dead-locked"
| .memoryLeak => .fatal "program leaked memory"

/-- From `main.rs` lines 79–95: the driver either dumps the translated
program (when `--dump` was passed) or executes it and reports the outcome.
The executor `exec` abstracts the external `run_program`; in dump mode it is
never consulted. -/
def mainBehavior (argv : List String) (exec : Program → TerminationInfo) (p : Program) : MainOutcome :=
  if dumpRequested argv then .dumped p else report (exec p)

/-! ### The literal test programs (embedded from
`tooling/minitest/src/tests/bool.rs`) -/

/-- `false_to_int_works` (`bool.rs` lines 5–15): switch on
`bool_to_int::<u8>(const_bool(false))` with arm `(0u8, 1)` and default 2;
block 1 exits, block 2 is unreachable. -/
def false_to_int_prog : Program :=
  program [function [] [
    block [] (switch_int (bool_to_int_u8 (const_bool false)) [(0, 1)] 2),
    block [] exit,
    block [] unreachable]]

/-- `true_to_int_works` (`bool.rs` lines 19–29): switch on
`bool_to_int::<u8>(const_bool(true))` with arm `(1u8, 1)` and default 2;
block 1 exits, block 2 is unreachable. -/
def true_to_int_prog : Program :=
  program [function [] [
    block [] (switch_int (bool_to_int_u8 (const_bool true)) [(1, 1)] 2),
    block [] exit,
    block [] unreachable]]

/-- `not_works_both_ways` (`bool.rs` lines 33–44): branch on
`not(const_bool(false))` then on `not(const_bool(true))`; block 2 exits,
block 3 is unreachable. -/
def not_works_prog : Program :=
  program [function [] [
    block [] (if_ (not (const_bool false)) 1 3),
    block [] (if_ (not (const_bool true)) 3 2),
    block [] exit,
    block [] unreachable]]

/-- `boolean_not_requires_boolean_op` (`bool.rs` lines 48–53): one boolean
local; `storage_live(0); assign(local(0), not(const_int::<u8>(0)));
storage_dead(0)`. -/
def boolean_not_requires_boolean_prog : Program :=
  small_program [.bool] [storage_live 0, assign 0 (not (const_int_u8 0)), storage_dead 0]

/-- `bool2int_requires_boolean_op` (`bool.rs` lines 57–63): one `u8` local;
`storage_live(0); assign(local(0), bool_to_int::<u8>(const_int::<u8>(0)));
storage_dead(0)`. -/
def bool2int_requires_boolean_prog : Program :=
  small_program [.int .u8]
    [storage_live 0, assign 0 (bool_to_int_u8 (const_int_u8 0)), storage_dead 0]

/-- `bit_and_bool_works` (`bool.rs` lines 67–82): the four boolean "and"
combinations chained through blocks 0–3, block 4 exits, block 5 is
unreachable. -/
def bit_and_bool_prog : Program :=
  program [function [] [
    block [] (if_ (bool_and (const_bool false) (const_bool false)) 5 1),
    block [] (if_ (bool_and (const_bool false) (const_bool true)) 5 2),
    block [] (if_ (bool_and (const_bool true) (const_bool false)) 5 3),
    block [] (if_ (bool_and (const_bool true) (const_bool true)) 4 5),
    block [] exit,
    block [] unreachable]]

/-- The 3-element `u8`-array constant `array(&[const_int::<u8>(0); 3],
<u8>::get_type())` from `bit_and_requires_bool`. -/
def const_arr_u8_3 : Operand :=
  array [const_int_u8 0, const_int_u8 0, const_int_u8 0] (.int .u8)

/-- `bit_and_requires_bool` (`bool.rs` lines 86–97): one boolean local;
`bool_and` applied to two 3-element `u8`-array constants. -/
def bit_and_arr_prog : Program :=
  program [function [.bool] [
    block [storage_live 0, assign 0 (bool_and const_arr_u8_3 const_arr_u8_3), storage_dead 0]
      exit]]

/-- `bit_and_no_bool_int_mixing` (`bool.rs` lines 101–111): one boolean
local; `bool_and` applied to `const_int::<i32>(1)` and `const_int::<i32>(0)`. -/
def bit_and_int_prog : Program :=
  program [function [.bool] [
    block [storage_live 0, assign 0 (bool_and (const_int_i32 1) (const_int_i32 0)), storage_dead 0]
      exit]]

/-! ### Syntactic occurrence of ill-typed operator applications -/

/-- A boolean "and" whose operands are not both boolean-typed (§4.4's
rejected combinations). -/
def isBoolAndOnNonBool : Rvalue → Bool
| .boolAnd l r => !(decide (l.ty = .bool) && decide (r.ty = .bool))
| _ => false

/-- A boolean negation applied to an integer-typed operand. -/
def isNotOnInt : Rvalue → Bool
| .not op => isIntOptTy (some op.ty)
| _ => false

/-- A boolean-to-integer cast applied to a non-boolean-typed operand. -/
def isBoolToIntOnNonBool : Rvalue → Bool
| .boolToInt _ op => !(decide (op.ty = .bool))
| _ => false

/-- The rvalues a statement contains. -/
def stmtRvalues : Statement → List Rvalue
| .assign _ src => [src]
| _ => []

/-- The rvalues a terminator contains. -/
def termRvalues : Terminator → List Rvalue
| .ite cond _ _ => [cond]
| .switchInt scrut _ _ => [scrut]
| _ => []

/-- All rvalues occurring in a basic block. -/
def blockRvalues (bb : BasicBlock) : List Rvalue :=
  bb.statements.flatMap stmtRvalues ++ termRvalues bb.terminator

/-- All rvalues occurring anywhere in a program. -/
def progRvalues (p : Program) : List Rvalue :=
  p.functions.flatMap (fun f => f.blocks.flatMap blockRvalues)

/-! ### General lemmas: an untypable rvalue anywhere makes the program
ill-formed before execution begins -/

/-- In a well-formed program, every rvalue that occurs somewhere has a type. -/
theorem wfProgram_rvalueTy_isSome {p : Program} (hwf : wfProgram p = true) :
    ∀ rv ∈ progRvalues p, (rvalueTy rv).isSome = true := by
  intro rv hmem
  rw [progRvalues] at hmem
  simp only [List.mem_flatMap] at hmem
  obtain ⟨f, hf, bb, hbb, hrv⟩ := hmem
  have hfun : wfFunction f = true :=
    List.all_eq_true.mp ((Bool.and_eq_true _ _).mp hwf).2 f hf
  have hblk : wfBlock f.locals f.blocks.length bb = true :=
    List.all_eq_true.mp ((Bool.and_eq_true _ _).mp hfun).2 bb hbb
  rw [blockRvalues] at hrv
  rcases List.mem_append.mp hrv with hstmt | hterm
  · simp only [List.mem_flatMap] at hstmt
    obtain ⟨s, hs, hrvs⟩ := hstmt
    have hwfs : wfStatement f.locals s = true :=
      List.all_eq_true.mp ((Bool.and_eq_true _ _).mp hblk).1 s hs
    cases s with
    | storageLive l => simp [stmtRvalues] at hrvs
    | storageDead l => simp [stmtRvalues] at hrvs
    | assign dest src =>
      have heq : rv = src := by simpa [stmtRvalues] using hrvs
      subst heq
      exact ((Bool.and_eq_true _ _).mp hwfs).2
  · have hwft : wfTerminator f.blocks.length bb.terminator = true :=
      ((Bool.and_eq_true _ _).mp hblk).2
    cases ht : bb.terminator with
    | ite cond t e =>
      rw [ht] at hterm hwft
      have hc : rv = cond := by simpa [termRvalues] using hterm
      subst hc
      have h1 := ((Bool.and_eq_true _ _).mp hwft).1
      rw [of_decide_eq_true h1]
      rfl
    | switchInt scrut arms d =>
      rw [ht] at hterm hwft
      have hc : rv = scrut := by simpa [termRvalues] using hterm
      subst hc
      have h1 := ((Bool.and_eq_true _ _).mp hwft).1
      cases h2 : rvalueTy rv with
      | none => rw [h2] at h1; simp [isIntOptTy] at h1
      | some t => rfl
    | exit => rw [ht] at hterm; simp [termRvalues] at hterm
    | unreachable => rw [ht] at hterm; simp [termRvalues] at hterm

/-- A program containing an rvalue with no type is reported IllFormed at any
fuel: well-formedness is checked before execution begins (§4.5, §7). -/
theorem runProgram_illFormed_of_untypable {p : Program} (fuel : Nat)
    (h : ∃ rv ∈ progRvalues p, rvalueTy rv = none) :
    runProgram p fuel = some TerminationInfo.illFormed := by
  have hwf : wfProgram p = false := by
    cases hw : wfProgram p
    · rfl
    · obtain ⟨rv, hmem, hnone⟩ := h
      have hsome := wfProgram_rvalueTy_isSome hw rv hmem
      rw [hnone] at hsome
      simp at hsome
  simp [runProgram, runProgramTrace, hwf]

/-- A boolean "and" over not-both-boolean operands has no type. -/
theorem rvalueTy_none_of_isBoolAndOnNonBool {rv : Rvalue}
    (h : isBoolAndOnNonBool rv = true) : rvalueTy rv = none := by
  cases rv with
  | boolAnd l r =>
    simp only [isBoolAndOnNonBool, Bool.not_eq_true', Bool.and_eq_false_iff,
      decide_eq_false_iff_not] at h
    simp only [rvalueTy, if_neg (by tauto : ¬(l.ty = Ty.bool ∧ r.ty = Ty.bool))]
  | use op => simp [isBoolAndOnNonBool] at h
  | not op => simp [isBoolAndOnNonBool] at h
  | boolToInt it op => simp [isBoolAndOnNonBool] at h

/-- A boolean negation over an integer-typed operand has no type. -/
theorem rvalueTy_none_of_isNotOnInt {rv : Rvalue}
    (h : isNotOnInt rv = true) : rvalueTy rv = none := by
  cases rv with
  | not op =>
    simp only [isNotOnInt] at h
    cases hty : op.ty with
    | int it => simp [rvalueTy, hty]
    | bool => rw [hty] at h; simp [isIntOptTy] at h
    | array elem count => rw [hty] at h; simp [isIntOptTy] at h
  | use op => simp [isNotOnInt] at h
  | boolToInt it op => simp [isNotOnInt] at h
  | boolAnd l r => simp [isNotOnInt] at h

/-- A boolean-to-integer cast over a non-boolean operand has no type. -/
theorem rvalueTy_none_of_isBoolToIntOnNonBool {rv : Rvalue}
    (h : isBoolToIntOnNonBool rv = true) : rvalueTy rv = none := by
  cases rv with
  | boolToInt it op =>
    simp only [isBoolToIntOnNonBool, Bool.not_eq_true', decide_eq_false_iff_not] at h
    simp [rvalueTy, h]
  | use op => simp [isBoolToIntOnNonBool] at h
  | not op => simp [isBoolToIntOnNonBool] at h
  | boolAnd l r => simp [isBoolToIntOnNonBool] at h

/-! ### The claims -/

/-- C1: in the literal bit-and scenario program, the boolean "and" operator
yields the standard truth-table result on all four constant combinations,
execution routes through blocks 1, 2, 3, 4 in order, and the program
terminates with MachineStop. -/
theorem claim_C1 :
    (evalRvalue (bool_and (const_bool false) (const_bool false)) = some (.bool false)
      ∧ evalRvalue (bool_and (const_bool false) (const_bool true)) = some (.bool false)
      ∧ evalRvalue (bool_and (const_bool true) (const_bool false)) = some (.bool false)
      ∧ evalRvalue (bool_and (const_bool true) (const_bool true)) = some (.bool true))
    ∧ runProgramTrace bit_and_bool_prog 10
        = some (TerminationInfo.machineStop, [0, 1, 2, 3, 4]) :=
  ⟨⟨rfl, rfl, rfl, rfl⟩, rfl⟩

/-- C2: every program applying the boolean "and" operator to operands that
are not both boolean-typed is classified IllFormed at any fuel; in
particular the 3-element `u8`-array program and the `i32` 1/0 program are
IllFormed. -/
theorem claim_C2 :
    (∀ (p : Program) (fuel : Nat),
        (∃ rv ∈ progRvalues p, isBoolAndOnNonBool rv = true) →
        runProgram p fuel = some TerminationInfo.illFormed)
    ∧ runProgram bit_and_arr_prog 1 = some TerminationInfo.illFormed
    ∧ runProgram bit_and_int_prog 1 = some TerminationInfo.illFormed := by
  refine ⟨fun p fuel h => ?_, rfl, rfl⟩
  obtain ⟨rv, hmem, hbad⟩ := h
  exact runProgram_illFormed_of_untypable fuel
    ⟨rv, hmem, rvalueTy_none_of_isBoolAndOnNonBool hbad⟩

/-- Witness for C2: the array-operand bit-and program contains a bad boolean
"and", and the general theorem classifies it IllFormed. -/
theorem claim_C2_witness :
    (∃ rv ∈ progRvalues bit_and_arr_prog, isBoolAndOnNonBool rv = true)
    ∧ runProgram bit_and_arr_prog 3 = some TerminationInfo.illFormed :=
  ⟨by decide, claim_C2.1 bit_and_arr_prog 3 (by decide)⟩

/-- C3: every program applying boolean negation to an integer-typed operand
is classified IllFormed at any fuel — never Ub, never MachineStop; in
particular the literal `storage_live(0); assign(local 0,
not(const_int_u8(0))); storage_dead(0)` program is IllFormed. -/
theorem claim_C3 :
    (∀ (p : Program) (fuel : Nat),
        (∃ rv ∈ progRvalues p, isNotOnInt rv = true) →
        runProgram p fuel = some TerminationInfo.illFormed)
    ∧ runProgram boolean_not_requires_boolean_prog 1 = some TerminationInfo.illFormed := by
  refine ⟨fun p fuel h => ?_, rfl⟩
  obtain ⟨rv, hmem, hbad⟩ := h
  exact runProgram_illFormed_of_untypable fuel
    ⟨rv, hmem, rvalueTy_none_of_isNotOnInt hbad⟩

/-- Witness for C3: the literal negation-of-integer program contains a
negation of an integer-typed operand, and the general theorem classifies it
IllFormed. -/
theorem claim_C3_witness :
    (∃ rv ∈ progRvalues boolean_not_requires_boolean_prog, isNotOnInt rv = true)
    ∧ runProgram boolean_not_requires_boolean_prog 2 = some TerminationInfo.illFormed :=
  ⟨by decide, claim_C3.1 boolean_not_requires_boolean_prog 2 (by decide)⟩

/-- C4: every program applying the boolean-to-integer cast to a non-boolean
operand is classified IllFormed at any fuel; in particular the literal
program casting `const_int_u8(0)` to `u8` is IllFormed. -/
theorem claim_C4 :
    (∀ (p : Program) (fuel : Nat),
        (∃ rv ∈ progRvalues p, isBoolToIntOnNonBool rv = true) →
        runProgram p fuel = some TerminationInfo.illFormed)
    ∧ runProgram bool2int_requires_boolean_prog 1 = some TerminationInfo.illFormed := by
  refine ⟨fun p fuel h => ?_, rfl⟩
  obtain ⟨rv, hmem, hbad⟩ := h
  exact runProgram_illFormed_of_untypable fuel
    ⟨rv, hmem, rvalueTy_none_of_isBoolToIntOnNonBool hbad⟩

/-- Witness for C4: the literal cast-of-integer program contains a
boolean-to-integer cast of a non-boolean operand, and the general theorem
classifies it IllFormed. -/
theorem claim_C4_witness :
    (∃ rv ∈ progRvalues bool2int_requires_boolean_prog, isBoolToIntOnNonBool rv = true)
    ∧ runProgram bool2int_requires_boolean_prog 2 = some TerminationInfo.illFormed :=
  ⟨by decide, claim_C4.1 bool2int_requires_boolean_prog 2 (by decide)⟩

/-- C5: in the literal false-to-int scenario program, casting the boolean
constant false to `u8` yields 0, the switch takes the `0u8` arm to the exit
block, and the program terminates with MachineStop. -/
theorem claim_C5 :
    evalRvalue (bool_to_int_u8 (const_bool false)) = some (.int 0)
    ∧ runProgramTrace false_to_int_prog 10 = some (TerminationInfo.machineStop, [0, 1]) :=
  ⟨rfl, rfl⟩

/-- C6: the driver maps MachineStop to silent success and each of IllFormed,
Ub, Deadlock, MemoryLeak to a fatal failure with its own message; the four
failure messages are pairwise distinct, and the Ub message carries the
interpreter's diagnostic payload verbatim. -/
theorem claim_C6 :
    report TerminationInfo.machineStop = MainOutcome.silentSuccess
    ∧ report TerminationInfo.illFormed
        = MainOutcome.fatal "ERR: program not well-formed (this is a bug in minimize)"
    ∧ (∀ e : String, report (TerminationInfo.ub e) = MainOutcome.fatal ("UB: " ++ e))
    ∧ report TerminationInfo.deadlock = MainOutcome.fatal "program dead-locked"
    ∧ report TerminationInfo.memoryLeak = MainOutcome.fatal "program leaked memory"
    ∧ (∀ e : String,
        ("UB: " ++ e) ≠ "ERR: program not well-formed (this is a bug in minimize)"
        ∧ ("UB: " ++ e) ≠ "program dead-locked"
        ∧ ("UB: " ++ e) ≠ "program leaked memory")
    ∧ ("ERR: program not well-formed (this is a bug in minimize)" ≠ "program dead-locked"
        ∧ "ERR: program not well-formed (this is a bug in minimize)" ≠ "program leaked memory"
        ∧ "program dead-locked" ≠ "program leaked memory") := by
  refine ⟨rfl, rfl, fun e => rfl, rfl, rfl, fun e => ?_, by decide, by decide, by decide⟩
  obtain ⟨l⟩ := e
  refine ⟨fun h => ?_, fun h => ?_, fun h => ?_⟩ <;>
    · have hd := congrArg String.data h
      simp [String.append] at hd

/-- Witness for C6: the Ub payload "boom" is surfaced verbatim and its
message differs from the deadlock message. -/
theorem claim_C6_witness :
    report (TerminationInfo.ub "boom") = MainOutcome.fatal ("UB: " ++ "boom")
    ∧ ("UB: " ++ "boom") ≠ "program dead-locked" :=
  ⟨claim_C6.2.2.1 "boom", (claim_C6.2.2.2.2.2.1 "boom").2.1⟩

/-- C7: a two-way branch whose condition evaluates to the boolean constant
false transfers control to the false-edge (and to the true-edge for true),
in one step to exactly that successor; in the literal not-scenario program
the visited blocks are exactly 0, 1, 2 — each once, the unreachable block 3
never — and the run terminates with MachineStop. -/
theorem claim_C7 :
    (∀ (rv : Rvalue) (t e : Nat), evalRvalue rv = some (.bool false) →
        execTerminator (if_ rv t e) = BlockOutcome.goto e)
    ∧ (∀ (rv : Rvalue) (t e : Nat), evalRvalue rv = some (.bool true) →
        execTerminator (if_ rv t e) = BlockOutcome.goto t)
    ∧ runProgramTrace not_works_prog 10 = some (TerminationInfo.machineStop, [0, 1, 2]) := by
  refine ⟨fun rv t e h => ?_, fun rv t e h => ?_, rfl⟩ <;> simp [execTerminator, if_, h]

/-- Witness for C7: `not(const_bool(true))` evaluates to false, so the branch
`if_(not(const_bool(true)), 3, 2)` of the literal program goes to block 2. -/
theorem claim_C7_witness :
    evalRvalue (not (const_bool true)) = some (Value.bool false)
    ∧ execTerminator (if_ (not (const_bool true)) 3 2) = BlockOutcome.goto 2 :=
  ⟨rfl, claim_C7.1 (not (const_bool true)) 3 2 rfl⟩

/-- C8: with `--dump` among the arguments the driver prints the program and
never consults the executor (the outcome is independent of it); without the
flag it executes, succeeding silently on MachineStop and failing fatally
with a message on every other TerminationInfo. -/
theorem claim_C8 :
    ∀ (argv : List String) (exec exec2 : Program → TerminationInfo) (p : Program),
      (dumpRequested argv = true →
        mainBehavior argv exec p = MainOutcome.dumped p
        ∧ mainBehavior argv exec p = mainBehavior argv exec2 p)
      ∧ (dumpRequested argv = false →
        mainBehavior argv exec p = report (exec p)
        ∧ (exec p = TerminationInfo.machineStop →
            mainBehavior argv exec p = MainOutcome.silentSuccess)
        ∧ (exec p ≠ TerminationInfo.machineStop →
            ∃ msg, mainBehavior argv exec p = MainOutcome.fatal msg)) := by
  intro argv exec exec2 p
  constructor
  · intro hd
    constructor <;> simp [mainBehavior, hd]
  · intro hd
    refine ⟨by simp [mainBehavior, hd], fun hm => by simp [mainBehavior, hd, hm, report], fun hm => ?_⟩
    cases hr : exec p with
    | machineStop => exact absurd hr hm
    | illFormed =>
      exact ⟨"ERR: program not well-formed (this is a bug in minimize)",
        by simp [mainBehavior, hd, hr, report]⟩
    | ub err => exact ⟨"UB: " ++ err, by simp [mainBehavior, hd, hr, report]⟩
    | deadlock => exact ⟨"program dead-locked", by simp [mainBehavior, hd, hr, report]⟩
    | memoryLeak => exact ⟨"program leaked memory", by simp [mainBehavior, hd, hr, report]⟩

/-- Witness for C8: with argv `["minimize", "--dump"]` the driver dumps the
false-to-int program without executing it. -/
theorem claim_C8_witness :
    dumpRequested ["minimize", "--dump"] = true
    ∧ mainBehavior ["minimize", "--dump"] (fun _ => TerminationInfo.deadlock) false_to_int_prog
        = MainOutcome.dumped false_to_int_prog :=
  ⟨by decide,
    ((claim_C8 ["minimize", "--dump"] (fun _ => TerminationInfo.deadlock)
      (fun _ => TerminationInfo.machineStop) false_to_int_prog).1 (by decide)).1⟩

/-- C9: casting the boolean constant true to `u8` yields exactly 1, and the
literal true-to-int scenario program takes the `1u8` arm to the exit block
and terminates with MachineStop, never reaching the unreachable default. -/
theorem claim_C9 :
    evalRvalue (bool_to_int_u8 (const_bool true)) = some (.int 1)
    ∧ runProgramTrace true_to_int_prog 10 = some (TerminationInfo.machineStop, [0, 1]) :=
  ⟨rfl, rfl⟩

/-- C10: for every argument list, the driver selects dump mode iff the exact
string "--dump" occurs among the arguments after the program name — at any
position, with all other arguments ignored. -/
theorem claim_C10 :
    ∀ argv : List String,
      dumpRequested argv = true ↔ ∃ x ∈ argv.drop 1, x = "--dump" := by
  intro argv
  simp [dumpRequested, List.any_eq_true, beq_iff_eq]

/-- Witness for C10: "--dump" in third position, after an ignored argument,
still selects dump mode. -/
theorem claim_C10_witness :
    dumpRequested ["minimize", "ignored-arg", "--dump"] = true :=
  (claim_C10 ["minimize", "ignored-arg", "--dump"]).mpr ⟨"--dump", by decide, rfl⟩

end Minimize
